import Mathlib

/-!
Verification development for the keepfood expiry-status and
notification-scheduling subsystem (`foodback`).

Shallow embedding of:
  * `foodback/utils/model_utils.py` : `calculate_expiry_date`
  * `foodback/models.py`            : `Food.status`, `Food.days_until_expiry`
  * `foodback/tasks/notification_tasks.py` :
      `check_expiring_foods`, `send_daily_summary`, `get_user_expiring_foods`,
      `generate_daily_summary`, `send_expiry_notification`,
      `send_summary_notification`, `send_push_notification`

Dates are modelled as proleptic Gregorian ordinals (`Int`, the value of
Python's `date.toordinal()`); `datetime` values as an ordinal day plus a
time-of-day.  The database is an in-memory record store and SQLAlchemy
queries become list filters; the push dispatcher is an external
collaborator modelled as a function `token → Bool`.
-/

namespace Keepfood

/-! A calendar date is represented as its proleptic Gregorian ordinal
(`Int`, the value of Python's `date.toordinal()`: 0001-01-01 has
ordinal 1).  Python's `date + timedelta(days = n)` is ordinal addition
and `date - date` is ordinal subtraction. -/

/-- A Python `datetime`: its calendar date together with the time of day
(microseconds since midnight).  `timedelta(days = n)` shifts `date` and
leaves `tod` unchanged; `replace(hour=0, minute=0, second=0, microsecond=0)`
zeroes `tod`. -/
structure DateTime where
  date : Int
  tod : Nat
deriving DecidableEq, Repr

/-- `datetime + timedelta(days = n)`. -/
def DateTime.addDays (t : DateTime) (n : Int) : DateTime :=
  ⟨t.date + n, t.tod⟩

/-- `datetime.replace(hour=0, minute=0, second=0, microsecond=0)`:
the midnight that starts the datetime's day. -/
def DateTime.midnight (t : DateTime) : DateTime :=
  ⟨t.date, 0⟩

/-- Chronological order on `datetime` values (lexicographic on day then
time of day). -/
def DateTime.le (a b : DateTime) : Prop :=
  a.date < b.date ∨ (a.date = b.date ∧ a.tod ≤ b.tod)

instance : DecidableRel DateTime.le := fun a b => by
  unfold DateTime.le; infer_instance

/-- Whether a proleptic Gregorian year is a leap year. -/
def isLeap (y : Int) : Bool :=
  y % 4 == 0 && (y % 100 != 0 || y % 400 == 0)

/-- Days in the year strictly before month `m` (1-based). -/
def daysBeforeMonth (leap : Bool) (m : Nat) : Int :=
  let base : Int :=
    match m with
    | 1 => 0 | 2 => 31 | 3 => 59 | 4 => 90 | 5 => 120 | 6 => 151
    | 7 => 181 | 8 => 212 | 9 => 243 | 10 => 273 | 11 => 304 | _ => 334
  if leap && m > 2 then base + 1 else base

/-- Python's `date(y, m, d).toordinal()`. -/
def toOrdinal (y : Int) (m d : Nat) : Int :=
  365 * (y - 1) + (y - 1) / 4 - (y - 1) / 100 + (y - 1) / 400
    + daysBeforeMonth (isLeap y) m + (d : Int)

/-! ### Python truthiness

`calculate_expiry_date` guards with `if not production_date or not
shelf_life_value or not shelf_life_unit`.  Under Python truthiness `None`
is falsy, the integer `0` is falsy, the empty string is falsy, and a
`date` object is always truthy. -/

/-- Truthiness of an optional Python `date` (dates are always truthy). -/
def pyTruthyDate : Option Int → Bool
  | none => false
  | some _ => true

/-- Truthiness of an optional Python `int` (`0` is falsy). -/
def pyTruthyInt : Option Int → Bool
  | none => false
  | some n => n != 0

/-- Truthiness of an optional Python `str` (`""` is falsy). -/
def pyTruthyStr : Option String → Bool
  | none => false
  | some s => s != ""

/-- `foodback.utils.model_utils.calculate_expiry_date`: derives an expiry
date from a production date and a shelf life.  Faithful to the source:
the leading guard is Python truthiness (so a shelf-life value of `0` also
yields `None`), and month/year units are the 30-day / 365-day
approximations. -/
def calculate_expiry_date (production_date : Option Int)
    (shelf_life_value : Option Int) (shelf_life_unit : Option String) :
    Option Int :=
  if !pyTruthyDate production_date || !pyTruthyInt shelf_life_value
      || !pyTruthyStr shelf_life_unit then
    none
  else
    match production_date, shelf_life_value, shelf_life_unit with
    | some pd, some v, some u =>
      if u == "day" then some (pd + v)
      else if u == "month" then some (pd + v * 30)
      else if u == "year" then some (pd + v * 365)
      else none
    | _, _, _ => none

/-- Python-level exceptions this core runs into: `TypeError` from
`date - datetime`, `AttributeError` from reading an attribute a model
does not define, and SQLAlchemy's `InvalidRequestError` from filtering
on an unmapped attribute. -/
inductive PyError where
  | typeError
  | attributeError
  | invalidRequestError
deriving DecidableEq, Repr

/-! ### The data model

Only the columns this core reads are modelled; the remaining columns of
`foodback/models.py` (images, category, nutrition fields, …) are inert
here.  `Numeric(10, 2)` quantities are modelled as integer hundredths —
only the sign of a quantity matters to these jobs. -/

/-- A user record as the jobs treat it: the row id plus the `is_active`
flag their loops filter on.  The `users` table itself maps no
`is_active` column — flask-login's `UserMixin` supplies `is_active`
only as an unmapped, always-true property — which is why the jobs'
`filter_by(is_active=True)` query fails at construction (see
`active_users_query`); the flag is kept on the record so the loop the
source states over active users can be expressed. -/
structure User where
  id : Nat
  is_active : Bool
deriving DecidableEq, Repr

/-- A row of the `foods` table (the columns this core reads).
`expiry_date` is declared `nullable=False` in the schema, but the ORM
object can still hold `None` before a flush and `Food.status` guards for
it, so it is modelled as optional. -/
structure Food where
  id : Nat
  user_id : Nat
  name : String
  quantity : Int
  expiry_date : Option Int
  created_at : DateTime
  is_deleted : Bool
deriving DecidableEq, Repr

/-- A row of the `push_tokens` table (the columns the jobs read).  The
token column is named `device_token`; the model has no `token`
attribute, although `notification_tasks.py` reads `token.token`. -/
structure PushToken where
  user_id : Nat
  device_token : String
  is_active : Bool
deriving DecidableEq, Repr

/-- The record store backing the SQLAlchemy queries. -/
structure Db where
  users : List User
  foods : List Food
  tokens : List PushToken
deriving DecidableEq, Repr

/-- `Food.status` (`foodback/models.py`): classify a food's freshness
from its expiry date and `date.today()` (passed explicitly as `today`).
`days_diff` is `(self.expiry_date - today).days`, an exact whole-day
difference of two dates. -/
def Food.status (f : Food) (today : Int) : String :=
  match f.expiry_date with
  | none => "unknown"
  | some d =>
    let days_diff := d - today
    if days_diff < 0 then "expired"
    else if days_diff ≤ 3 then "expiring_soon"
    else "normal"

/-- `Food.days_until_expiry` (`foodback/models.py`). -/
def Food.days_until_expiry (f : Food) (today : Int) : Option Int :=
  match f.expiry_date with
  | none => none
  | some d => some (d - today)


/-- C1: `Food.status` returns `"unknown"` exactly when the expiry date is
null; `"expired"` exactly when days-until-expiry is negative;
`"expiring_soon"` exactly when days-until-expiry is between 0 and 3
inclusive; `"normal"` exactly when days-until-expiry exceeds 3 — for
every food item and every value of `today`. -/
theorem status_classifies_freshness (f : Food) (today : Int) :
    (f.status today = "unknown" ↔ f.expiry_date = none)
    ∧ (f.status today = "expired" ↔
        ∃ d, f.expiry_date = some d ∧ d - today < 0)
    ∧ (f.status today = "expiring_soon" ↔
        ∃ d, f.expiry_date = some d ∧ 0 ≤ d - today ∧ d - today ≤ 3)
    ∧ (f.status today = "normal" ↔
        ∃ d, f.expiry_date = some d ∧ 3 < d - today) := by
  cases h : f.expiry_date with
  | none =>
    have hv : f.status today = "unknown" := by simp [Food.status, h]
    refine ⟨⟨fun _ => rfl, fun _ => hv⟩, ?_, ?_, ?_⟩
    · refine ⟨fun hx => ?_, fun hx => ?_⟩
      · rw [hv] at hx; exact absurd hx (by decide)
      · obtain ⟨e, he, -⟩ := hx; exact Option.noConfusion he
    · refine ⟨fun hx => ?_, fun hx => ?_⟩
      · rw [hv] at hx; exact absurd hx (by decide)
      · obtain ⟨e, he, -⟩ := hx; exact Option.noConfusion he
    · refine ⟨fun hx => ?_, fun hx => ?_⟩
      · rw [hv] at hx; exact absurd hx (by decide)
      · obtain ⟨e, he, -⟩ := hx; exact Option.noConfusion he
  | some d =>
    have hs : f.status today =
        (if d - today < 0 then "expired"
         else if d - today ≤ 3 then "expiring_soon" else "normal") := by
      simp [Food.status, h]
    have hnone : ¬ (some d = (none : Option Int)) :=
      fun hx => Option.noConfusion hx
    by_cases h1 : d - today < 0
    · have hv : f.status today = "expired" := by rw [hs]; exact if_pos h1
      refine ⟨?_, ?_, ?_, ?_⟩
      · refine ⟨fun hx => ?_, fun hx => absurd hx hnone⟩
        rw [hv] at hx; exact absurd hx (by decide)
      · exact ⟨fun _ => ⟨d, rfl, h1⟩, fun _ => hv⟩
      · refine ⟨fun hx => ?_, fun hx => ?_⟩
        · rw [hv] at hx; exact absurd hx (by decide)
        · obtain ⟨e, he, h2, -⟩ := hx
          obtain rfl := Option.some.inj he; exfalso; omega
      · refine ⟨fun hx => ?_, fun hx => ?_⟩
        · rw [hv] at hx; exact absurd hx (by decide)
        · obtain ⟨e, he, h2⟩ := hx
          obtain rfl := Option.some.inj he; exfalso; omega
    · by_cases h2 : d - today ≤ 3
      · have hv : f.status today = "expiring_soon" := by
          rw [hs, if_neg h1]; exact if_pos h2
        refine ⟨?_, ?_, ?_, ?_⟩
        · refine ⟨fun hx => ?_, fun hx => absurd hx hnone⟩
          rw [hv] at hx; exact absurd hx (by decide)
        · refine ⟨fun hx => ?_, fun hx => ?_⟩
          · rw [hv] at hx; exact absurd hx (by decide)
          · obtain ⟨e, he, h3⟩ := hx
            obtain rfl := Option.some.inj he; exfalso; omega
        · exact ⟨fun _ => ⟨d, rfl, by omega, h2⟩, fun _ => hv⟩
        · refine ⟨fun hx => ?_, fun hx => ?_⟩
          · rw [hv] at hx; exact absurd hx (by decide)
          · obtain ⟨e, he, h3⟩ := hx
            obtain rfl := Option.some.inj he; exfalso; omega
      · have hv : f.status today = "normal" := by
          rw [hs, if_neg h1]; exact if_neg h2
        refine ⟨?_, ?_, ?_, ?_⟩
        · refine ⟨fun hx => ?_, fun hx => absurd hx hnone⟩
          rw [hv] at hx; exact absurd hx (by decide)
        · refine ⟨fun hx => ?_, fun hx => ?_⟩
          · rw [hv] at hx; exact absurd hx (by decide)
          · obtain ⟨e, he, h3⟩ := hx
            obtain rfl := Option.some.inj he; exfalso; omega
        · refine ⟨fun hx => ?_, fun hx => ?_⟩
          · rw [hv] at hx; exact absurd hx (by decide)
          · obtain ⟨e, he, -, h3⟩ := hx
            obtain rfl := Option.some.inj he; exfalso; omega
        · exact ⟨fun _ => ⟨d, rfl, by omega⟩, fun _ => hv⟩

/-- C2 counterexample: with `production_date = 2024-01-01`,
`shelf_life_value = 12`, `shelf_life_unit = "month"` the source returns
`2024-01-01 + 360 days = 2024-12-26` (2024 is a leap year), not the
claimed `2024-12-27`; and `shelf_life_value = 0` returns `None` (Python
truthiness) rather than `production_date + 0 days`. -/
theorem calculate_expiry_date_counterexample :
    calculate_expiry_date (some (toOrdinal 2024 1 1)) (some 12)
        (some "month") = some (toOrdinal 2024 12 26)
    ∧ toOrdinal 2024 12 26 ≠ toOrdinal 2024 12 27
    ∧ calculate_expiry_date (some (toOrdinal 2024 1 1)) (some 0)
        (some "day") = none := by
  refine ⟨by decide, by decide, by decide⟩

/-- C2 (amended): `calculate_expiry_date` returns `None` when the
production date is null, the shelf-life value is null **or zero**
(Python truthiness), or the unit is not one of `day`/`month`/`year`;
otherwise it adds `value` days for `day`, `value * 30` for `month` and
`value * 365` for `year`; the example input 2024-01-01 / 12 / `month`
yields 2024-12-26 (360 days later — 2024 is a leap year). -/
theorem calculate_expiry_date_amended :
    (∀ v u, calculate_expiry_date none v u = none)
    ∧ (∀ pd u, calculate_expiry_date (some pd) none u = none)
    ∧ (∀ pd v, calculate_expiry_date (some pd) (some v) none = none)
    ∧ (∀ pd v u, calculate_expiry_date (some pd) (some v) (some u) =
        if v = 0 then none
        else if u = "day" then some (pd + v)
        else if u = "month" then some (pd + v * 30)
        else if u = "year" then some (pd + v * 365)
        else none)
    ∧ calculate_expiry_date (some (toOrdinal 2024 1 1)) (some 12)
        (some "month") = some (toOrdinal 2024 12 26) := by
  refine ⟨?_, ?_, ?_, ?_, by decide⟩
  · intro v u; rfl
  · intro pd u
    simp [calculate_expiry_date, pyTruthyInt]
  · intro pd v
    simp [calculate_expiry_date, pyTruthyStr]
  · intro pd v u
    by_cases hv : v = 0
    · subst hv
      simp [calculate_expiry_date, pyTruthyInt, pyTruthyDate, pyTruthyStr]
    · by_cases hu : u = ""
      · subst hu
        simp [calculate_expiry_date, pyTruthyInt, pyTruthyDate,
          pyTruthyStr, hv]
      · simp only [calculate_expiry_date, pyTruthyDate, pyTruthyInt,
          pyTruthyStr, if_neg hv]
        have hvb : (v != 0) = true := by simpa using hv
        have hub : (u != "") = true := by simpa using hu
        simp only [hvb, hub, Bool.not_true, Bool.false_or, Bool.or_false,
          Bool.or_self, if_false]
        by_cases h1 : u = "day"
        · simp [h1]
        · by_cases h2 : u = "month"
          · simp [h1, h2]
          · by_cases h3 : u = "year"
            · simp [h1, h2, h3]
            · simp [h1, h2, h3]


/-! ### Repository queries (`foodback/tasks/notification_tasks.py`)

SQLAlchemy queries over the record store become list filters.  A
comparison of the `Date`-typed column `Food.expiry_date` against a
`datetime` operand is bound with the column's `Date` type, so it takes
place at date granularity: `expiry_date >= datetime.utcnow()` compares
the stored ordinal with `now.date`, and `utcnow() + timedelta(days=k)`
has date component `now.date + k`. -/

/-- The users query `User.query.filter_by(is_active=True)` (lines 22
and 70 of `notification_tasks.py`): the `users` table maps no
`is_active` column, so SQLAlchemy rejects the filter while the query is
being built, before any row is fetched; each job's outer `except`
catches this and the run ends with no user processed. -/
def active_users_query (_db : Db) : Except PyError (List User) :=
  Except.error PyError.invalidRequestError

/-- `PushToken.query.filter_by(user_id=user_id, is_active=True).all()`. -/
def active_push_tokens (db : Db) (user_id : Nat) : List PushToken :=
  db.tokens.filter (fun t => t.user_id == user_id && t.is_active)

/-- Sort key of `ORDER BY Food.expiry_date ASC` (null dates never reach
the ordering: the WHERE clause already excludes them). -/
def expiryKey (f : Food) : Int :=
  f.expiry_date.getD 0

/-- The ordering used by `ORDER BY Food.expiry_date ASC`. -/
def expiryLe (a b : Food) : Prop :=
  expiryKey a ≤ expiryKey b

instance : DecidableRel expiryLe := fun a b => by
  unfold expiryLe; infer_instance

instance : IsTotal Food expiryLe :=
  ⟨fun a b => le_total (expiryKey a) (expiryKey b)⟩

instance : IsTrans Food expiryLe :=
  ⟨fun _ _ _ hab hbc => le_trans hab hbc⟩

/-- The WHERE clause of `get_user_expiring_foods`: the user's rows, not
soft-deleted, positive quantity, `expiry_date <= cutoff_date` and
`expiry_date >= datetime.utcnow()` (a SQL comparison against NULL never
matches, though the schema forbids null expiry dates anyway). -/
def expiring_pred (user_id : Nat) (now cutoff_date : DateTime) (f : Food) : Bool :=
  f.user_id == user_id && f.is_deleted == false && decide (0 < f.quantity) &&
  (match f.expiry_date with
   | some d => decide (d ≤ cutoff_date.date) && decide (now.date ≤ d)
   | none => false)

/-- `get_user_expiring_foods` (`notification_tasks.py`): the user's live
rows with expiry date between now and `now + advance_days`, ascending by
expiry date. -/
def get_user_expiring_foods (db : Db) (user_id : Nat) (now : DateTime)
    (advance_days : Int) : List Food :=
  let cutoff_date := now.addDays advance_days
  List.insertionSort expiryLe
    (db.foods.filter (expiring_pred user_id now cutoff_date))

lemma expiring_pred_iff (user_id : Nat) (now cutoff_date : DateTime)
    (f : Food) :
    expiring_pred user_id now cutoff_date f = true ↔
      f.user_id = user_id ∧ f.is_deleted = false ∧ 0 < f.quantity ∧
        ∃ d, f.expiry_date = some d ∧ now.date ≤ d ∧ d ≤ cutoff_date.date := by
  cases h : f.expiry_date with
  | none => simp [expiring_pred, h]
  | some d =>
    simp only [expiring_pred, h, Bool.and_eq_true, beq_iff_eq,
      decide_eq_true_eq, Option.some.injEq]
    constructor
    · rintro ⟨⟨⟨h1, h2⟩, h3⟩, h4, h5⟩
      exact ⟨h1, h2, h3, d, rfl, h5, h4⟩
    · rintro ⟨h1, h2, h3, e, rfl, h4, h5⟩
      exact ⟨⟨⟨h1, h2⟩, h3⟩, h5, h4⟩

/-! ### Concrete scenario data

A user with items A (expires today), B (expires in 2 days), C (expires
in 10 days), used by the spec's scan scenario.  `exToday` is an
arbitrary ordinal; `exNow` is 09:00 of that day. -/

def exToday : Int := 739000

def exNow : DateTime := ⟨exToday, 32400000000⟩

def exFoodA : Food :=
  ⟨1, 1, "A", 100, some exToday, ⟨exToday - 10, 0⟩, false⟩

def exFoodB : Food :=
  ⟨2, 1, "B", 100, some (exToday + 2), ⟨exToday - 10, 0⟩, false⟩

def exFoodC : Food :=
  ⟨3, 1, "C", 100, some (exToday + 10), ⟨exToday - 10, 0⟩, false⟩

def exDb : Db :=
  ⟨[⟨1, true⟩], [exFoodC, exFoodA, exFoodB],
   [⟨1, "t1", true⟩, ⟨1, "t2", true⟩]⟩

/-- C4: the expiring-items query returns exactly the user's live rows
(not deleted, positive quantity) whose expiry date lies in the closed
interval from today through today + advance_days — an item expiring
exactly today included, an expired one excluded — sorted ascending by
expiry date; on the scenario items A (today), B (+2 days), C (+10 days)
with a 3-day window it returns A and B and not C. -/
theorem expiring_query_window :
    (∀ (db : Db) (user_id : Nat) (now : DateTime) (advance_days : Int),
      (∀ f, f ∈ get_user_expiring_foods db user_id now advance_days ↔
        (f ∈ db.foods ∧ f.user_id = user_id ∧ f.is_deleted = false ∧
         0 < f.quantity ∧ ∃ d, f.expiry_date = some d ∧
           now.date ≤ d ∧ d ≤ now.date + advance_days))
      ∧ (get_user_expiring_foods db user_id now advance_days).Pairwise expiryLe
      ∧ (get_user_expiring_foods db user_id now advance_days).Perm
          (db.foods.filter (expiring_pred user_id now (now.addDays advance_days))))
    ∧ get_user_expiring_foods exDb 1 exNow 3 = [exFoodA, exFoodB] := by
  refine ⟨fun db user_id now advance_days => ⟨?_, ?_, ?_⟩, by decide⟩
  · intro f
    rw [get_user_expiring_foods]
    rw [List.mem_insertionSort, List.mem_filter, expiring_pred_iff]
    rw [show (DateTime.addDays now advance_days).date = now.date + advance_days from rfl]
  · exact List.sorted_insertionSort expiryLe _
  · exact List.perm_insertionSort expiryLe _

/-! ### Push payloads and the expiry scan job
(`foodback/tasks/notification_tasks.py`)

`send_push_notification` in the source is a placeholder that delegates
delivery to the push provider; the provider's outcome is the external
`NotificationDispatcher`, modelled as a function `dispatch : token →
Bool`.  The send loops, however, never reach it: they read
`token.token`, an attribute the `PushToken` model does not have (its
column is `device_token`), so the first iteration raises
`AttributeError` and each send function's own `except` clause returns
`False` with no dispatch attempted.  The jobs perform no repository
writes, so a run leaves the record store unchanged.  Reports carry,
besides the counters the source logs, the trace of `(user, token)`
pairs a dispatch was attempted on, to state which tokens were
reached. -/

/-- The `{title, body, data}` payload dictionaries built by the send
functions. -/
structure PushPayload where
  title : String
  body : String
  food_count : Nat
  foods : List (Nat × String)
deriving DecidableEq, Repr

/-- The expiry-reminder payload of `send_expiry_notification`: singular
wording for exactly one expiring item, plural wording otherwise, plus
the item count and the first five items. -/
def expiry_payload (expiring_foods : List Food) : PushPayload :=
  let info := (expiring_foods.take 5).map (fun f => (f.id, f.name))
  match expiring_foods with
  | [f] => ⟨"食物即将过期提醒", "您的" ++ f.name ++ "即将过期，请尽快食用", 1, info⟩
  | _ => ⟨"多个食物即将过期",
          "您有" ++ toString expiring_foods.length ++ "种食物即将过期，请及时处理",
          expiring_foods.length, info⟩

/-- `send_push_notification(token, payload)`: hands the message to the
push transport and reports its outcome (the transport treats the
payload opaquely). -/
def send_push_notification {π : Type} (dispatch : String → Bool)
    (token : String) (_payload : π) : Bool :=
  dispatch token

/-- The attribute access `token.token` performed by the send loops
(lines 201 and 245): the model's column is `device_token`, so the
attribute does not exist and the access raises `AttributeError`. -/
def pushTokenTokenAttr (_t : PushToken) : Except PyError String :=
  Except.error PyError.attributeError

/-- The per-token loop shared by `send_expiry_notification` and
`send_summary_notification`: for each token it reads `token.token` —
which raises — and would otherwise dispatch and count the success.
Returns the success count, or the exception that aborted the loop,
together with the tokens a dispatch was actually attempted on before
any exception. -/
def send_tokens_loop {π : Type} (dispatch : String → Bool) (payload : π) :
    List PushToken → Except PyError Nat × List String
  | [] => (Except.ok 0, [])
  | t :: rest =>
    match pushTokenTokenAttr t with
    | .error e => (Except.error e, [])
    | .ok tok =>
      let success := send_push_notification dispatch tok payload
      let r := send_tokens_loop dispatch payload rest
      ((match r.1 with
        | .error e => Except.error e
        | .ok n => Except.ok (if success then n + 1 else n)),
       tok :: r.2)

/-- `send_expiry_notification`: builds the reminder payload and runs the
per-token send loop, returning `sent_count > 0`; the loop's first
iteration raises `AttributeError` at `token.token`, the function's own
`except` clause catches it and returns `False` — so no dispatch is ever
attempted and the function never reports success. -/
def send_expiry_notification (dispatch : String → Bool)
    (expiring_foods : List Food) (push_tokens : List PushToken) :
    Bool × List String :=
  let payload := expiry_payload expiring_foods
  let r := send_tokens_loop dispatch payload push_tokens
  match r.1 with
  | .ok sent_count => (decide (0 < sent_count), r.2)
  | .error _ => (false, r.2)

/-- The counters `check_expiring_foods` logs, plus the dispatch-attempt
trace. -/
structure ScanReport where
  total_users_notified : Nat
  total_notifications : Nat
  attempts : List (Nat × String)
deriving DecidableEq, Repr

/-- The body of the per-user `try` block of `check_expiring_foods`
(lines 28–55): fetch the user's expiring foods (skip the user when none),
fetch the active tokens (skip when none), send, and on success count
`len(push_tokens)` notifications and one notified user.  A repository
failure surfaces as `Except.error`, to be caught by the loop. -/
def process_scan_user (fetch_foods : Nat → Except String (List Food))
    (fetch_tokens : Nat → Except String (List PushToken))
    (dispatch : String → Bool) (user_id : Nat) :
    Except String (Nat × Nat × List String) :=
  match fetch_foods user_id with
  | .error e => .error e
  | .ok expiring_foods =>
    if expiring_foods.isEmpty then .ok (0, 0, [])
    else
      match fetch_tokens user_id with
      | .error e => .error e
      | .ok push_tokens =>
        if push_tokens.isEmpty then .ok (0, 0, [])
        else
          let r := send_expiry_notification dispatch expiring_foods push_tokens
          if r.1 then .ok (1, push_tokens.length, r.2)
          else .ok (0, 0, r.2)

/-- One iteration of the user loop of `check_expiring_foods`: accumulate
the user's contribution; the `except` clause turns any failure into
`continue`, leaving the counters untouched. -/
def scan_step (fetch_foods : Nat → Except String (List Food))
    (fetch_tokens : Nat → Except String (List PushToken))
    (dispatch : String → Bool) (rep : ScanReport) (u : User) : ScanReport :=
  match process_scan_user fetch_foods fetch_tokens dispatch u.id with
  | .ok (nu, nn, att) =>
    ⟨rep.total_users_notified + nu, rep.total_notifications + nn,
     rep.attempts ++ att.map (fun t => (u.id, t))⟩
  | .error _ => rep

/-- The user loop of `check_expiring_foods` (lines 27–55) over a
supplied user list, accumulating each user's contribution; per-user
failures are caught and skipped.  The full job, including the users
query that in fact fails first, is `check_expiring_foods_run`. -/
def check_expiring_foods (fetch_foods : Nat → Except String (List Food))
    (fetch_tokens : Nat → Except String (List PushToken))
    (dispatch : String → Bool) (users : List User) : ScanReport :=
  (users.filter (fun u => u.is_active)).foldl
    (scan_step fetch_foods fetch_tokens dispatch) ⟨0, 0, []⟩

/-- One full run of the scan job against the record store: the
repository collaborators are the concrete queries (`advance_days = 1`),
and the job performs no repository writes, so the store comes back
unchanged. -/
def run_scan (db : Db) (now : DateTime) (dispatch : String → Bool) :
    ScanReport × Db :=
  (check_expiring_foods
    (fun uid => Except.ok (get_user_expiring_foods db uid now 1))
    (fun uid => Except.ok (active_push_tokens db uid))
    dispatch db.users, db)

/-- Scenario tokens: user 1's two active tokens `t1` and `t2`
(`device_token` values). -/
def exTokenT1 : PushToken := ⟨1, "t1", true⟩

def exTokenT2 : PushToken := ⟨1, "t2", true⟩

/-- Scenario token collaborator for the C8 witness: every user has the
two active tokens. -/
def exFetchTokens : Nat → Except String (List PushToken) :=
  fun _ => Except.ok [exTokenT1, exTokenT2]

/-- C8: a per-user repository failure is caught by the loop's `except`
clause: the job's report over any user list containing the failing user
equals the report with that user removed — the exception never escapes
and every other user is still processed. -/
theorem scan_job_isolates_user_failure
    (fetch_foods : Nat → Except String (List Food))
    (fetch_tokens : Nat → Except String (List PushToken))
    (dispatch : String → Bool) (us1 us2 : List User) (u : User) (e : String)
    (hf : fetch_foods u.id = Except.error e) :
    check_expiring_foods fetch_foods fetch_tokens dispatch (us1 ++ u :: us2)
      = check_expiring_foods fetch_foods fetch_tokens dispatch (us1 ++ us2) := by
  have hp : process_scan_user fetch_foods fetch_tokens dispatch u.id
      = Except.error e := by
    simp [process_scan_user, hf]
  have hstep : ∀ rep, scan_step fetch_foods fetch_tokens dispatch rep u = rep := by
    intro rep; simp [scan_step, hp]
  unfold check_expiring_foods
  rw [List.filter_append, List.filter_append, List.filter_cons]
  cases ha : u.is_active with
  | false => simp [ha]
  | true =>
    simp only [ha, if_true]
    rw [List.foldl_append, List.foldl_cons, hstep, ← List.foldl_append]

/-- A repository where the read for user 2 fails and every other read
succeeds, for the C8 witness. -/
def exFetchFoodsFailing : Nat → Except String (List Food) :=
  fun uid => if uid == 2 then Except.error "db read failed" else Except.ok [exFoodA]

def exUser1 : User := ⟨1, true⟩

def exUser2 : User := ⟨2, true⟩

def exUser3 : User := ⟨3, true⟩

/-- C8 witness: with user 2's repository read failing, the three-user
batch produces the same report as the batch without user 2. -/
theorem scan_job_isolates_user_failure_witness :
    check_expiring_foods exFetchFoodsFailing exFetchTokens (fun _ => true)
        ([exUser1] ++ exUser2 :: [exUser3])
      = check_expiring_foods exFetchFoodsFailing exFetchTokens (fun _ => true)
        ([exUser1] ++ [exUser3]) :=
  scan_job_isolates_user_failure exFetchFoodsFailing exFetchTokens
    (fun _ => true) [exUser1] [exUser3] exUser2 "db read failed" rfl

/-- C9: rerunning the scan job immediately, with the record store the
first run handed back and the same dispatcher, reports the same
`usersNotified` count — the job neither writes to the store nor
deduplicates against prior sends, so the second run re-notifies exactly
the same users. -/
theorem scan_job_rerun_same_count (db : Db) (now : DateTime)
    (dispatch : String → Bool) :
    ((run_scan (run_scan db now dispatch).2 now dispatch).1).total_users_notified
      = ((run_scan db now dispatch).1).total_users_notified := rfl

/-! ### The daily summary job
(`generate_daily_summary` / `send_daily_summary`, `notification_tasks.py`) -/

/-- `Food.query.filter_by(user_id=user_id, is_deleted=False).count()` —
the `total_foods` figure.  Note: the source applies no quantity filter
here. -/
def total_foods (db : Db) (user_id : Nat) : Nat :=
  (db.foods.filter
    (fun f => f.user_id == user_id && f.is_deleted == false)).length

/-- The `expired_foods` count: the user's non-deleted rows with positive
quantity and `expiry_date < datetime.utcnow()` (date-granular column
comparison). -/
def expired_foods (db : Db) (user_id : Nat) (now : DateTime) : Nat :=
  (db.foods.filter (fun f =>
    f.user_id == user_id && f.is_deleted == false && decide (0 < f.quantity) &&
    (match f.expiry_date with
     | some d => decide (d < now.date)
     | none => false))).length

/-- The `today_added` count: the user's non-deleted rows with
`created_at >= utcnow().replace(hour=0, minute=0, second=0,
microsecond=0)`.  Note: the source applies no quantity filter here
either. -/
def today_added (db : Db) (user_id : Nat) (now : DateTime) : Nat :=
  (db.foods.filter (fun f =>
    f.user_id == user_id && f.is_deleted == false &&
      decide (DateTime.le now.midnight f.created_at))).length

/-- Python rejects subtraction between a `date` and a `datetime`:
`food.expiry_date - datetime.utcnow()` raises `TypeError` whatever the
operands' values. -/
def pySubDateDatetime (_d : Int) (_t : DateTime) : Except PyError Int :=
  Except.error PyError.typeError

/-- One entry of the summary's `expiring_foods` payload list (the
`isoformat()` serialization of the date is elided: the ordinal stands
for the serialized date). -/
structure SummaryFood where
  name : String
  expiry_date : Int
  days_until_expiry : Int
deriving DecidableEq, Repr

/-- The summary dictionary of `generate_daily_summary`. -/
structure Summary where
  total_foods : Nat
  expiring_count : Nat
  expired_count : Nat
  today_added : Nat
  expiring_foods : List SummaryFood
deriving DecidableEq, Repr

/-- The `expiring_foods` list comprehension of `generate_daily_summary`
applied to `expiring_foods[:5]`, evaluated left to right with exception
propagation: each entry computes `(food.expiry_date -
datetime.utcnow()).days`, a `date - datetime` subtraction that raises
`TypeError` (a null date would raise `AttributeError` at `isoformat()`
first, though the query excludes nulls). -/
def summary_entries : List Food → DateTime → Except PyError (List SummaryFood)
  | [], _ => Except.ok []
  | f :: rest, now =>
    match f.expiry_date with
    | some d =>
      match pySubDateDatetime d now with
      | .error e => Except.error e
      | .ok diff =>
        match summary_entries rest now with
        | .error e => Except.error e
        | .ok tail => Except.ok (⟨f.name, d, diff⟩ :: tail)
    | none => Except.error PyError.attributeError

/-- `generate_daily_summary`: compute the four figures, skip (return
`None`) when all four are zero-equivalent, otherwise build the summary
dictionary; the surrounding `try` turns any exception — in particular
the `TypeError` from the payload comprehension — into a logged `None`. -/
def generate_daily_summary (db : Db) (user_id : Nat) (now : DateTime) :
    Option Summary :=
  let total := total_foods db user_id
  let expiring := get_user_expiring_foods db user_id now 3
  let expired := expired_foods db user_id now
  let added := today_added db user_id now
  if total = 0 ∧ expiring.length = 0 ∧ expired = 0 ∧ added = 0 then
    none
  else
    match summary_entries (expiring.take 5) now with
    | .ok entries => some ⟨total, expiring.length, expired, added, entries⟩
    | .error _ => none

/-- The body string built by `send_summary_notification`: the present
clauses in fixed order, joined with `，`, falling back to the
total-count sentence when no clause applies. -/
def summary_body (summary : Summary) : String :=
  let body_parts :=
    (if summary.today_added > 0 then
      ["今日新增" ++ toString summary.today_added ++ "种食物"] else [])
    ++ (if summary.expiring_count > 0 then
      [toString summary.expiring_count ++ "种即将过期"] else [])
    ++ (if summary.expired_count > 0 then
      [toString summary.expired_count ++ "种已过期"] else [])
  if body_parts.isEmpty then
    "您目前有" ++ toString summary.total_foods ++ "种食物"
  else
    String.intercalate "，" body_parts

/-- `send_summary_notification`: builds the summary message and runs
the per-token send loop; like the expiry variant, the loop's first
iteration raises `AttributeError` at `token.token`, the function's own
`except` clause returns `False`, and no dispatch is attempted. -/
def send_summary_notification (dispatch : String → Bool) (summary : Summary)
    (push_tokens : List PushToken) : Bool × List String :=
  let payload : String × String := ("每日食物摘要", summary_body summary)
  let r := send_tokens_loop dispatch payload push_tokens
  match r.1 with
  | .ok sent_count => (decide (0 < sent_count), r.2)
  | .error _ => (false, r.2)

/-- The counter `send_daily_summary` logs, plus the dispatch-attempt
trace. -/
structure SummaryReport where
  total_summaries_sent : Nat
  attempts : List (Nat × String)
deriving DecidableEq, Repr

/-- The body of the per-user `try` block of `send_daily_summary` (lines
75–100): generate the summary (skip the user on `None`), fetch the
active tokens (skip when none), send, count one summary on success. -/
def process_summary_user (db : Db) (dispatch : String → Bool)
    (now : DateTime) (user_id : Nat) : Nat × List String :=
  match generate_daily_summary db user_id now with
  | none => (0, [])
  | some summary =>
    let push_tokens := active_push_tokens db user_id
    if push_tokens.isEmpty then (0, [])
    else
      let r := send_summary_notification dispatch summary push_tokens
      if r.1 then (1, r.2) else (0, r.2)

/-- One iteration of the user loop of `send_daily_summary`. -/
def summary_step (db : Db) (dispatch : String → Bool) (now : DateTime)
    (rep : SummaryReport) (u : User) : SummaryReport :=
  let r := process_summary_user db dispatch now u.id
  ⟨rep.total_summaries_sent + r.1, rep.attempts ++ r.2.map (fun t => (u.id, t))⟩

/-- The user loop of `send_daily_summary` (lines 74–100) over a
supplied user list, accumulating each user's contribution.  The full
job, including the users query that in fact fails first, is
`send_daily_summary_run`. -/
def send_daily_summary (db : Db) (dispatch : String → Bool)
    (now : DateTime) (users : List User) : SummaryReport :=
  (users.filter (fun u => u.is_active)).foldl
    (summary_step db dispatch now) ⟨0, []⟩

/-- `send_daily_summary` as the program actually runs: the outer `try`
fails at the same users query and the run ends with no user processed
and no summary sent. -/
def send_daily_summary_run (db : Db) (dispatch : String → Bool)
    (now : DateTime) : SummaryReport :=
  match active_users_query db with
  | .error _ => ⟨0, []⟩
  | .ok users => send_daily_summary db dispatch now users

lemma summary_entries_cons_error (f : Food) (rest : List Food)
    (now : DateTime) :
    ∃ e, summary_entries (f :: rest) now = Except.error e := by
  cases h : f.expiry_date with
  | none => exact ⟨PyError.attributeError, by simp [summary_entries, h]⟩
  | some d =>
    exact ⟨PyError.typeError, by simp [summary_entries, h, pySubDateDatetime]⟩

lemma send_daily_summary_erase (db : Db) (dispatch : String → Bool)
    (now : DateTime) (us1 us2 : List User) (u : User)
    (h : process_summary_user db dispatch now u.id = (0, [])) :
    send_daily_summary db dispatch now (us1 ++ u :: us2)
      = send_daily_summary db dispatch now (us1 ++ us2) := by
  have hstep : ∀ rep, summary_step db dispatch now rep u = rep := by
    intro rep; simp [summary_step, h]
  unfold send_daily_summary
  rw [List.filter_append, List.filter_append, List.filter_cons]
  cases ha : u.is_active with
  | false => simp [ha]
  | true =>
    simp only [ha, if_true]
    rw [List.foldl_append, List.foldl_cons, hstep, ← List.foldl_append]

/-- C6: whenever the 3-day expiring-items query returns at least one
item for a user, the summary payload comprehension raises (it subtracts
a `datetime` from a `date`), the handler catches it and
`generate_daily_summary` returns `None`, so `send_daily_summary` skips
that user entirely — no summary is dispatched to any user who actually
has expiring items. -/
theorem summary_type_error_skips_user
    (db : Db) (dispatch : String → Bool) (now : DateTime)
    (us1 us2 : List User) (u : User)
    (h : get_user_expiring_foods db u.id now 3 ≠ []) :
    (∃ e, summary_entries ((get_user_expiring_foods db u.id now 3).take 5) now
        = Except.error e)
    ∧ generate_daily_summary db u.id now = none
    ∧ send_daily_summary db dispatch now (us1 ++ u :: us2)
        = send_daily_summary db dispatch now (us1 ++ us2) := by
  obtain ⟨f, rest, hfr⟩ :
      ∃ f rest, get_user_expiring_foods db u.id now 3 = f :: rest := by
    cases hq : get_user_expiring_foods db u.id now 3 with
    | nil => exact absurd hq h
    | cons f rest => exact ⟨f, rest, rfl⟩
  have herr : ∃ e,
      summary_entries ((get_user_expiring_foods db u.id now 3).take 5) now
        = Except.error e := by
    rw [hfr, List.take_succ_cons]
    exact summary_entries_cons_error f (rest.take 4) now
  have hgen : generate_daily_summary db u.id now = none := by
    obtain ⟨e, he⟩ := herr
    unfold generate_daily_summary
    rw [if_neg, he]
    rintro ⟨-, hlen, -, -⟩
    rw [hfr] at hlen
    exact Nat.succ_ne_zero _ hlen
  have hproc : process_summary_user db dispatch now u.id = (0, []) := by
    simp [process_summary_user, hgen]
  exact ⟨herr, hgen, send_daily_summary_erase db dispatch now us1 us2 u hproc⟩

/-- C6 witness: on the scenario store (user 1 has items expiring within
3 days), the payload comprehension errors, the summary is `None`, and
the one-user batch equals the empty batch. -/
theorem summary_type_error_skips_user_witness :
    (∃ e, summary_entries ((get_user_expiring_foods exDb 1 exNow 3).take 5) exNow
        = Except.error e)
    ∧ generate_daily_summary exDb 1 exNow = none
    ∧ send_daily_summary exDb (fun _ => true) exNow ([] ++ exUser1 :: [])
        = send_daily_summary exDb (fun _ => true) exNow ([] ++ []) :=
  summary_type_error_skips_user exDb (fun _ => true) exNow [] [] exUser1
    (by decide)

/-- C7: a user whose four summary figures are all zero-equivalent is
skipped entirely: `generate_daily_summary` returns `None`, the user's
loop iteration makes no dispatch attempt and adds nothing to
`total_summaries_sent`, and the batch report equals the report without
that user. -/
theorem summary_skips_empty_user
    (db : Db) (dispatch : String → Bool) (now : DateTime)
    (us1 us2 : List User) (u : User)
    (h1 : total_foods db u.id = 0)
    (h2 : get_user_expiring_foods db u.id now 3 = [])
    (h3 : expired_foods db u.id now = 0)
    (h4 : today_added db u.id now = 0) :
    generate_daily_summary db u.id now = none
    ∧ process_summary_user db dispatch now u.id = (0, [])
    ∧ send_daily_summary db dispatch now (us1 ++ u :: us2)
        = send_daily_summary db dispatch now (us1 ++ us2) := by
  have hgen : generate_daily_summary db u.id now = none := by
    unfold generate_daily_summary
    rw [if_pos]
    exact ⟨h1, by rw [h2]; rfl, h3, h4⟩
  have hproc : process_summary_user db dispatch now u.id = (0, []) := by
    simp [process_summary_user, hgen]
  exact ⟨hgen, hproc, send_daily_summary_erase db dispatch now us1 us2 u hproc⟩

/-- A store in which user 1 owns nothing at all, for the C7 witness. -/
def exEmptyDb : Db := ⟨[exUser1], [], [⟨1, "t1", true⟩]⟩

/-- C7 witness: a user with `totalFoods = 0`, no expiring items,
`expiredCount = 0` and `todayAdded = 0` is skipped: no dispatch, no
counter increment, batch unchanged. -/
theorem summary_skips_empty_user_witness :
    generate_daily_summary exEmptyDb 1 exNow = none
    ∧ process_summary_user exEmptyDb (fun _ => true) exNow 1 = (0, [])
    ∧ send_daily_summary exEmptyDb (fun _ => true) exNow ([] ++ exUser1 :: [])
        = send_daily_summary exEmptyDb (fun _ => true) exNow ([] ++ []) :=
  summary_skips_empty_user exEmptyDb (fun _ => true) exNow [] [] exUser1
    rfl (by decide) rfl rfl

/-! ### C5: the summary figures versus the spec's live-item counts -/

/-- The spec's `totalFoods` figure, following its words: "count of live
items", a live item being not soft-deleted with positive remaining
quantity (refinement reference, for comparison with `total_foods`). -/
def liveItemCountSpec (db : Db) (user_id : Nat) : Nat :=
  (db.foods.filter (fun f =>
    (f.user_id == user_id && f.is_deleted == false)
      && decide (0 < f.quantity))).length

/-- The spec's `todayAdded` figure, following its words: "count of live
items with `createdAt >= start of today`" (refinement reference, for
comparison with `today_added`). -/
def todayAddedLiveSpec (db : Db) (user_id : Nat) (now : DateTime) : Nat :=
  (db.foods.filter (fun f =>
    (f.user_id == user_id && f.is_deleted == false &&
      decide (DateTime.le now.midnight f.created_at))
      && decide (0 < f.quantity))).length

/-- The user's non-deleted rows with zero (or negative) quantity — what
`total_foods` counts beyond the live items. -/
def zeroQuantityCount (db : Db) (user_id : Nat) : Nat :=
  (db.foods.filter (fun f =>
    (f.user_id == user_id && f.is_deleted == false)
      && !(decide (0 < f.quantity)))).length

/-- The user's non-deleted rows added today with zero (or negative)
quantity — what `today_added` counts beyond the live items. -/
def zeroQuantityTodayAdded (db : Db) (user_id : Nat) (now : DateTime) : Nat :=
  (db.foods.filter (fun f =>
    (f.user_id == user_id && f.is_deleted == false &&
      decide (DateTime.le now.midnight f.created_at))
      && !(decide (0 < f.quantity)))).length

lemma length_filter_and_split {α : Type} (l : List α) (p q : α → Bool) :
    (l.filter p).length
      = (l.filter (fun x => p x && q x)).length
        + (l.filter (fun x => p x && !q x)).length := by
  induction l with
  | nil => rfl
  | cons a t ih =>
    cases hp : p a with
    | false => simp [List.filter_cons, hp, ih]
    | true =>
      cases hq : q a with
      | false => simp [List.filter_cons, hp, hq, ih]; omega
      | true => simp [List.filter_cons, hp, hq, ih]; omega

/-- A non-deleted food of user 1 with remaining quantity 0, created
today — counted by `total_foods` and `today_added` but not a live
item. -/
def exZeroQtyFood : Food :=
  ⟨9, 1, "Z", 0, some (exToday + 100), ⟨exToday, 0⟩, false⟩

def exDbZeroQty : Db := ⟨[exUser1], [exZeroQtyFood], []⟩

/-- C5 counterexample: on a store holding one zero-quantity, non-deleted
food created today, the job's `total_foods` and `today_added` figures
are both 1 while the counts of live items the claim prescribes are both
0 — the source queries omit the `quantity > 0` filter. -/
theorem daily_counts_counterexample :
    total_foods exDbZeroQty 1 = 1
    ∧ liveItemCountSpec exDbZeroQty 1 = 0
    ∧ today_added exDbZeroQty 1 exNow = 1
    ∧ todayAddedLiveSpec exDbZeroQty 1 exNow = 0 := by
  refine ⟨by decide, by decide, by decide, by decide⟩

/-- C5 (amended): in every daily-summary run, `totalFoods` counts the
user's non-deleted items regardless of quantity — the live-item count
plus the zero-quantity stragglers — and `todayAdded` likewise counts
the non-deleted items created at or after the start of today (UTC
midnight of the job's clock) regardless of quantity. -/
theorem daily_counts_amended (db : Db) (user_id : Nat) (now : DateTime) :
    total_foods db user_id
      = liveItemCountSpec db user_id + zeroQuantityCount db user_id
    ∧ today_added db user_id now
      = todayAddedLiveSpec db user_id now
        + zeroQuantityTodayAdded db user_id now := by
  constructor
  · simp only [total_foods, liveItemCountSpec, zeroQuantityCount]
    exact length_filter_and_split db.foods
      (fun f => f.user_id == user_id && f.is_deleted == false)
      (fun f => decide (0 < f.quantity))
  · simp only [today_added, todayAddedLiveSpec, zeroQuantityTodayAdded]
    exact length_filter_and_split db.foods
      (fun f => f.user_id == user_id && f.is_deleted == false &&
        decide (DateTime.le now.midnight f.created_at))
      (fun f => decide (0 < f.quantity))

/-! ### C10: no validation of contract-violating shelf lives -/

/-- C10 counterexample: a negative shelf-life value is not rejected —
`calculate_expiry_date` silently returns a date (five days before the
production date), with no error of any kind. -/
theorem negative_shelf_life_counterexample :
    calculate_expiry_date (some 1000) (some (-5)) (some "day") = some 995
    ∧ calculate_expiry_date (some 1000) (some (-5)) (some "day") ≠ none := by
  refine ⟨by decide, by decide⟩

/-- C10 (amended): the calculator performs no input validation: for any
negative shelf-life value with unit `day` it silently returns
`production_date + value` — an expiry date strictly before the
production date — rather than failing fast. -/
theorem negative_shelf_life_silent (pd v : Int) (h : v < 0) :
    calculate_expiry_date (some pd) (some v) (some "day") = some (pd + v)
    ∧ pd + v < pd := by
  have hvb : (v != 0) = true := by
    simp only [bne_iff_ne, ne_eq]
    omega
  constructor
  · simp [calculate_expiry_date, pyTruthyDate, pyTruthyInt, pyTruthyStr, hvb]
  · omega

/-- C10 witness: shelf life −5 days on production date (ordinal) 1000
yields the date 995, five days before production. -/
theorem negative_shelf_life_silent_witness :
    calculate_expiry_date (some 1000) (some (-5)) (some "day")
        = some (1000 + (-5))
    ∧ (1000 : Int) + (-5) < 1000 :=
  negative_shelf_life_silent 1000 (-5) (by decide)

end Keepfood
